import Mathlib

/-!
# Verification of the Notion task-summarizer script (`src/EC.py`)

Shallow embedding of the single-file integration script: it queries a Notion
database, extracts a (title, description) pair from each returned record with
defensive shape handling, asks a completion endpoint for a summary, and
patches the summary back into the record.

JSON values are embedded as the inductive `JVal`; Python's dynamic failures
(`KeyError`, `AttributeError`, `TypeError`, `IndexError`, the `HTTPError`
raised by `raise_for_status`, and the startup `EnvironmentError`) become the
`PyErr` error type of an `Except` monad.  The external services (the Notion
query response, the completion endpoint, the update endpoint's status) are
oracle parameters; the run's observable behaviour is the list of outgoing
calls (`Event`) together with the final `Except` result.
-/

namespace EC

/-- JSON values, as produced by `response.json()`.  Numbers are modelled as
integers (no claim touches numeric values). -/
inductive JVal : Type where
  | null : JVal
  | bool : Bool → JVal
  | num : Int → JVal
  | str : String → JVal
  | arr : List JVal → JVal
  | obj : List (String × JVal) → JVal
deriving Repr

/-- Python exceptions the script can raise, plus the startup error. -/
inductive PyErr : Type where
  | envError (msg : String)
  | httpError (status : Nat)
  | keyError (key : String)
  | attrError
  | typeError
  | indexError
deriving Repr, DecidableEq

/-- One outgoing network call made by the script: the database query POST, a
completion request carrying its prompt, or an update PATCH carrying the target
page id and the JSON body. -/
inductive Event : Type where
  | query
  | summarize (prompt : String)
  | update (pageId : String) (body : JVal)
deriving Repr

/-- First binding of a key in an object's field list (objects stand for
Python dicts, whose keys are unique). -/
def lookupJ : List (String × JVal) → String → Option JVal
  | [], _ => none
  | (k, v) :: rest, key => if k = key then some v else lookupJ rest key

/-- Python truthiness of a JSON value. -/
def pyTruthy : JVal → Bool
  | .null => false
  | .bool b => b
  | .num n => n != 0
  | .str s => s != ""
  | .arr xs => !xs.isEmpty
  | .obj fs => !fs.isEmpty

/-- Python subscription `d[k]`: `KeyError` on a dict without the key,
`TypeError` when the value is not a dict (string subscription with a string
key also raises `TypeError`). -/
def pyIndex (v : JVal) (k : String) : Except PyErr JVal :=
  match v with
  | .obj fs =>
    match lookupJ fs k with
    | some x => .ok x
    | none => .error (.keyError k)
  | _ => .error .typeError

/-- Python `d.get(k, default)`: `AttributeError` when the receiver is not a dict. -/
def pyGet (v : JVal) (k : String) (default : JVal) : Except PyErr JVal :=
  match v with
  | .obj fs => .ok ((lookupJ fs k).getD default)
  | _ => .error .attrError

/-- A single-quote character, used by Python `repr`. -/
def squote : String := String.singleton (Char.ofNat 39)

mutual

/-- Python `repr` of a JSON value (string escaping inside `repr` is
simplified to bare single quotes; no claim depends on container rendering). -/
def pyRepr : JVal → String
  | .null => "None"
  | .bool true => "True"
  | .bool false => "False"
  | .num n => toString n
  | .str s => squote ++ s ++ squote
  | .arr xs => "[" ++ pyReprSeq xs ++ "]"
  | .obj fs => "\x7b" ++ pyReprFields fs ++ "\x7d"

/-- Comma-separated `repr`s of a list's elements. -/
def pyReprSeq : List JVal → String
  | [] => ""
  | [x] => pyRepr x
  | x :: y :: xs => pyRepr x ++ ", " ++ pyReprSeq (y :: xs)

/-- Comma-separated `repr`s of a dict's entries. -/
def pyReprFields : List (String × JVal) → String
  | [] => ""
  | [(k, v)] => squote ++ k ++ squote ++ ": " ++ pyRepr v
  | (k, v) :: e :: fs =>
      squote ++ k ++ squote ++ ": " ++ pyRepr v ++ ", " ++ pyReprFields (e :: fs)

end

/-- Python `str()`, as applied by f-string interpolation. -/
def pyStr : JVal → String
  | .str s => s
  | v => pyRepr v

/-- Model of `response.raise_for_status()` from the `requests` library: it
raises exactly for status codes in [400, 600). -/
def raise_for_status (status : Nat) : Except PyErr Unit :=
  if 400 ≤ status ∧ status < 600 then .error (.httpError status) else .ok ()

/-- Step 1 (`get_new_notion_items`, EC.py lines 24-39): POST the query, raise
on a non-success status, then return `response.json()["results"]`.  The
response's status and parsed JSON body are the oracle inputs. -/
def get_new_notion_items (status : Nat) (body : JVal) : Except PyErr JVal :=
  match raise_for_status status with
  | .error e => .error e
  | .ok () => pyIndex body "results"

/-- Whitespace as stripped by Python's `str.strip()` (restricted to the ASCII
whitespace characters; no claim involves non-ASCII whitespace). -/
def pyIsSpace (c : Char) : Bool :=
  c = ' ' || c = '\t' || c = '\n' || c = '\r' || c = '\x0b' || c = '\x0c'

/-- Python's `str.strip()`: drop leading and trailing whitespace. -/
def pyStrip (s : String) : String :=
  ((s.toList.dropWhile pyIsSpace).reverse.dropWhile pyIsSpace).reverse.asString

/-- The prompt built by `summarize_task` (EC.py line 47): an f-string over the
title and description as already converted to strings. -/
def summarize_prompt (title description : String) : String :=
  "Summarize and prioritize this task:\nTitle: " ++ title ++
    "\nDescription: " ++ description

/-- Step 2 (`summarize_task`, EC.py lines 44-54).  The completion oracle maps
a prompt to either a client failure or the list of choices' message contents;
the code takes `choices[0]` (raising `IndexError` when empty) and strips it.
Returns the completion request event together with the result. -/
def summarize_task (completions : String → Except PyErr (List String))
    (title description : JVal) : Event × Except PyErr String :=
  let prompt := summarize_prompt (pyStr title) (pyStr description)
  (Event.summarize prompt,
    match completions prompt with
    | .error e => .error e
    | .ok [] => .error .indexError
    | .ok (c :: _) => .ok (pyStrip c))

/-- The JSON body of the update PATCH (EC.py lines 66-76): the "Summary"
property set to a single rich-text fragment holding the summary. -/
def update_notion_page_body (summary : String) : JVal :=
  .obj [("properties", .obj [("Summary", .obj [("rich_text",
    .arr [.obj [("text", .obj [("content", .str summary)])]])])])]

/-- Step 3 (`update_notion_page`, EC.py lines 59-80): PATCH the body to the
page's endpoint, then raise on a non-success status.  The update oracle maps
the page id and body to the response status. -/
def update_notion_page (updateStatus : String → JVal → Nat)
    (page_id : JVal) (summary : String) : Event × Except PyErr Unit :=
  let pid := pyStr page_id
  let body := update_notion_page_body summary
  (Event.update pid body, raise_for_status (updateStatus pid body))

/-- The defensive field extraction of `main` (EC.py lines 96-108), shared by
the title (`props.get("Doc name", {}).get("title", [])`) and the description
(`props.get("Notes / Background", {}).get("rich_text", [])`): when the field
value is a non-empty list, take the first fragment's
`.get("text", {}).get("content", "")`, replacing a falsy content by `""`;
otherwise keep `""`.  Each `.get` on a non-dict raises `AttributeError`. -/
def extractField (props : List (String × JVal))
    (propName fieldName : String) : Except PyErr JVal :=
  match pyGet ((lookupJ props propName).getD (JVal.obj [])) fieldName (JVal.arr []) with
  | .error e => .error e
  | .ok block =>
    match block with
    | .arr (frag :: _) =>
      match pyGet frag "text" (JVal.obj []) with
      | .error e => .error e
      | .ok textVal =>
        match pyGet textVal "content" (JVal.str "") with
        | .error e => .error e
        | .ok content => .ok (if pyTruthy content then content else JVal.str "")
    | _ => .ok (JVal.str "")

/-- The shapes on which `extractField` does not raise: every value it calls
`.get` on (the property's value, the first fragment, and the fragment's
"text" value) is a dict, or is never reached. -/
def extractShapeOk (props : List (String × JVal))
    (propName fieldName : String) : Bool :=
  match (lookupJ props propName).getD (JVal.obj []) with
  | .obj fs =>
    match (lookupJ fs fieldName).getD (JVal.arr []) with
    | .arr (frag :: _) =>
      match frag with
      | .obj ffs =>
        match (lookupJ ffs "text").getD (JVal.obj []) with
        | .obj _ => true
        | _ => false
      | _ => false
    | _ => true
  | _ => false

/-- Shapes of a property for which the extraction degrades to the empty
string: every `.get` receiver reached is a dict, and no truthy content is
found — the property is missing, its field value is not a non-empty list,
the first fragment is a dict without a "text" dict, or the "text" dict has
no truthy "content". -/
def extractDegrades (props : List (String × JVal))
    (propName fieldName : String) : Bool :=
  match (lookupJ props propName).getD (JVal.obj []) with
  | .obj fs =>
    match (lookupJ fs fieldName).getD (JVal.arr []) with
    | .arr (frag :: _) =>
      (match frag with
       | .obj ffs =>
         (match (lookupJ ffs "text").getD (JVal.obj []) with
          | .obj tfs => !(pyTruthy ((lookupJ tfs "content").getD (JVal.str "")))
          | _ => false)
       | _ => false)
    | _ => true
  | _ => false

/-- The body of the `for item in items` loop of `main` (EC.py lines 89-117)
for one item: index "id" and "properties", require `props` to be a dict (the
line-94 `list(props.keys())` print raises `AttributeError` otherwise),
extract title and description, skip on a falsy title, otherwise call the
summarizer and then the updater.  Returns the calls made for this item and
the result (`.ok` means the loop continues). -/
def processItem (completions : String → Except PyErr (List String))
    (updateStatus : String → JVal → Nat) (item : JVal) :
    List Event × Except PyErr Unit :=
  match pyIndex item "id" with
  | .error e => ([], .error e)
  | .ok page_id =>
  match pyIndex item "properties" with
  | .error e => ([], .error e)
  | .ok propsV =>
  match propsV with
  | .obj props =>
    match extractField props "Doc name" "title" with
    | .error e => ([], .error e)
    | .ok title =>
    match extractField props "Notes / Background" "rich_text" with
    | .error e => ([], .error e)
    | .ok description =>
    if pyTruthy title then
      match summarize_task completions title description with
      | (ev, .error e) => ([ev], .error e)
      | (ev, .ok summary) =>
        match update_notion_page updateStatus page_id summary with
        | (ev2, r) => ([ev, ev2], r)
    else ([], .ok ())
  | _ => ([], .error .attrError)

/-- The `for` loop of `main` over the fetched items: the first raised error
aborts the run; calls already made are kept in the trace. -/
def processItems (completions : String → Except PyErr (List String))
    (updateStatus : String → JVal → Nat) :
    List JVal → List Event × Except PyErr Unit
  | [] => ([], .ok ())
  | item :: rest =>
    match processItem completions updateStatus item with
    | (evs, .error e) => (evs, .error e)
    | (evs, .ok ()) =>
      match processItems completions updateStatus rest with
      | (evs2, r) => (evs ++ evs2, r)

/-- Python iteration as used by `main` (`len(items)` then `for item in
items`): lists yield their elements, strings their characters, dicts their
keys; other values make `len` raise `TypeError`. -/
def pyIter : JVal → Except PyErr (List JVal)
  | .arr xs => .ok xs
  | .str s => .ok (s.toList.map fun c => JVal.str (String.singleton c))
  | .obj fs => .ok (fs.map fun e => JVal.str e.1)
  | _ => .error .typeError

/-- The `main` function (EC.py lines 85-117): fetch the items, then process them in
order.  The query POST is issued before its status is inspected, so the
`query` event is always first in the trace. -/
def main (fetchStatus : Nat) (fetchBody : JVal)
    (completions : String → Except PyErr (List String))
    (updateStatus : String → JVal → Nat) : List Event × Except PyErr Unit :=
  match get_new_notion_items fetchStatus fetchBody with
  | .error e => ([Event.query], .error e)
  | .ok results =>
    match pyIter results with
    | .error e => ([Event.query], .error e)
    | .ok items =>
      match processItems completions updateStatus items with
      | (evs, r) => (Event.query :: evs, r)

/-- The startup error message of EC.py lines 16-19. -/
def env_error_message : String :=
  "❌ Missing one or more environment variables: NOTION_TOKEN, OPENAI_API_KEY, NOTION_DATABASE_ID"

/-- Truthiness of an `os.getenv` result: `None` (unset) and `""` (set but
empty) are both falsy. -/
def envTruthy : Option String → Bool
  | none => false
  | some s => s != ""

/-- The module-level validation (EC.py lines 10-19): raise `EnvironmentError`
unless all three environment values are truthy. -/
def startup_check (notion_token openai_api_key notion_database_id : Option String) :
    Except PyErr Unit :=
  if envTruthy notion_token && envTruthy openai_api_key && envTruthy notion_database_id
  then .ok () else .error (.envError env_error_message)

/-- The whole process: module-level validation, then `main`.  A failed
validation makes no network call, so the trace is empty. -/
def run_program (notion_token openai_api_key notion_database_id : Option String)
    (fetchStatus : Nat) (fetchBody : JVal)
    (completions : String → Except PyErr (List String))
    (updateStatus : String → JVal → Nat) : List Event × Except PyErr Unit :=
  match startup_check notion_token openai_api_key notion_database_id with
  | .error e => ([], .error e)
  | .ok () => main fetchStatus fetchBody completions updateStatus


/-- Items the `for` loop body processes without raising: a dict holding an
"id" key and a "properties" dict, with extraction-safe shapes for both
consumed properties. -/
def wellFormedItem : JVal → Bool
  | .obj fs =>
    (lookupJ fs "id").isSome &&
    (match lookupJ fs "properties" with
     | some (.obj props) =>
        extractShapeOk props "Doc name" "title" &&
        extractShapeOk props "Notes / Background" "rich_text"
     | _ => false)
  | _ => false

/-- Whether the loop body reaches the summarize-then-update branch for an
item: its extracted title is truthy. -/
def itemHasTitle : JVal → Bool
  | .obj fs =>
    (match lookupJ fs "properties" with
     | some (.obj props) =>
        (match extractField props "Doc name" "title" with
         | .ok t => pyTruthy t
         | .error _ => false)
     | _ => false)
  | _ => false

/-- Recognizer for completion-request events, used to count Summarizer calls. -/
def isSummarizeEv : Event → Bool
  | .summarize _ => true
  | _ => false

/-- Recognizer for update-request events, used to count Updater calls. -/
def isUpdateEv : Event → Bool
  | .update _ _ => true
  | _ => false

/-- Records whose "title" rich-text sequence is empty or absent: the "Doc
name" property is missing, or is a dict whose "title" key is missing or
holds an empty list. -/
def titleAbsentOrEmpty (props : List (String × JVal)) : Bool :=
  match lookupJ props "Doc name" with
  | none => true
  | some (JVal.obj fs) =>
    (match lookupJ fs "title" with
     | none => true
     | some (JVal.arr []) => true
     | _ => false)
  | some _ => false

/-- A fully well-shaped property map with the given title and description. -/
def sampleProps (title desc : String) : List (String × JVal) :=
  [("Doc name", .obj [("title", .arr [.obj [("text", .obj [("content", .str title)])]])]),
   ("Notes / Background", .obj [("rich_text", .arr [.obj [("text", .obj [("content", .str desc)])]])])]

/-- The field list of a fully well-shaped record. -/
def sampleFields (pid title desc : String) : List (String × JVal) :=
  [("id", .str pid), ("properties", .obj (sampleProps title desc))]

/-- A fully well-shaped record, used to instantiate the theorems. -/
def sampleRecord (pid title desc : String) : JVal := .obj (sampleFields pid title desc)

/-- A well-shaped record whose title rich-text sequence is empty. -/
def sampleNoTitleRecord : JVal :=
  .obj [("id", .str "p2"), ("properties", .obj
    [("Doc name", .obj [("title", .arr [])]),
     ("Notes / Background", .obj [("rich_text", .arr [.obj [("text", .obj [("content", .str "d2")])]])])])]

end EC

namespace EC

theorem extract_core (props : List (String × JVal)) (pn fn : String) :
    if extractShapeOk props pn fn then (∃ v, extractField props pn fn = Except.ok v)
    else extractField props pn fn = Except.error PyErr.attrError := by
  unfold extractField extractShapeOk
  cases h1 : (lookupJ props pn).getD (JVal.obj []) with
  | obj fs =>
    simp only [pyGet]
    cases h2 : (lookupJ fs fn).getD (JVal.arr []) with
    | arr xs =>
      cases xs with
      | nil => simp
      | cons frag rest =>
        cases frag with
        | obj ffs =>
          simp only [pyGet]
          cases h3 : (lookupJ ffs "text").getD (JVal.obj []) with
          | obj tfs => simp [pyGet]
          | null => simp [pyGet]
          | bool b => simp [pyGet]
          | num n => simp [pyGet]
          | str s => simp [pyGet]
          | arr ys => simp [pyGet]
        | null => simp [pyGet]
        | bool b => simp [pyGet]
        | num n => simp [pyGet]
        | str s => simp [pyGet]
        | arr ys => simp [pyGet]
    | null => simp [pyGet]
    | bool b => simp [pyGet]
    | num n => simp [pyGet]
    | str s => simp [pyGet]
    | obj gs => simp [pyGet]
  | null => simp [pyGet]
  | bool b => simp [pyGet]
  | num n => simp [pyGet]
  | str s => simp [pyGet]
  | arr ys => simp [pyGet]


theorem extractField_error_iff (props : List (String × JVal)) (pn fn : String) :
    extractField props pn fn = Except.error PyErr.attrError ↔
      extractShapeOk props pn fn = false := by
  have h := extract_core props pn fn
  cases hs : extractShapeOk props pn fn with
  | true =>
    rw [hs] at h
    simp only [if_true] at h
    obtain ⟨v, hv⟩ := h
    simp [hv]
  | false =>
    rw [hs] at h
    simp at h
    simp [h]

theorem extractField_ok_of_shapeOk (props : List (String × JVal)) (pn fn : String)
    (h : extractShapeOk props pn fn = true) :
    ∃ v, extractField props pn fn = Except.ok v := by
  have hc := extract_core props pn fn
  rw [h] at hc
  simpa using hc

theorem extractField_empty_of_no_frag (props : List (String × JVal)) (pn fn : String)
    (fs : List (String × JVal)) (hp : (lookupJ props pn).getD (JVal.obj []) = JVal.obj fs)
    (hf : ∀ frag rest, (lookupJ fs fn).getD (JVal.arr []) ≠ JVal.arr (frag :: rest)) :
    extractField props pn fn = Except.ok (JVal.str "") := by
  unfold extractField
  rw [hp]
  cases h2 : (lookupJ fs fn).getD (JVal.arr []) with
  | arr xs =>
    cases xs with
    | nil => simp [pyGet]
    | cons frag rest => exact absurd h2 (hf frag rest)
  | null => simp [pyGet]
  | bool b => simp [pyGet]
  | num n => simp [pyGet]
  | str s => simp [pyGet]
  | obj gs => simp [pyGet]

theorem extractField_empty_of_degrades (props : List (String × JVal)) (pn fn : String)
    (h : extractDegrades props pn fn = true) :
    extractField props pn fn = Except.ok (JVal.str "") := by
  unfold extractDegrades at h
  unfold extractField
  cases h1 : (lookupJ props pn).getD (JVal.obj []) with
  | obj fs =>
    simp only [h1] at h
    simp only [pyGet]
    cases h2 : (lookupJ fs fn).getD (JVal.arr []) with
    | arr xs =>
      simp only [h2] at h
      cases xs with
      | nil => simp
      | cons frag tail =>
        cases frag with
        | obj ffs =>
          simp only [pyGet]
          simp only [] at h
          cases h3 : (lookupJ ffs "text").getD (JVal.obj []) with
          | obj tfs =>
            simp only [h3] at h
            simp only [pyGet]
            simp at h
            simp [h]
          | null => simp only [h3] at h; simp at h
          | bool b => simp only [h3] at h; simp at h
          | num n => simp only [h3] at h; simp at h
          | str s => simp only [h3] at h; simp at h
          | arr ys => simp only [h3] at h; simp at h
        | null => simp at h
        | bool b => simp at h
        | num n => simp at h
        | str s => simp at h
        | arr ys => simp at h
    | null => simp
    | bool b => simp
    | num n => simp
    | str s => simp
    | obj gs => simp
  | null => simp only [h1] at h; simp at h
  | bool b => simp only [h1] at h; simp at h
  | num n => simp only [h1] at h; simp at h
  | str s => simp only [h1] at h; simp at h
  | arr ys => simp only [h1] at h; simp at h

theorem processItem_wf (c : String → Except PyErr (List String))
    (u : String → JVal → Nat) (item : JVal)
    (hc : ∀ p, ∃ x xs, c p = Except.ok (x :: xs))
    (hu : ∀ pid b, u pid b < 400)
    (hw : wellFormedItem item = true) :
    if itemHasTitle item then
      ∃ p pid b, processItem c u item = ([Event.summarize p, Event.update pid b], Except.ok ())
    else processItem c u item = ([], Except.ok ()) := by
  cases item with
  | obj fs =>
    simp only [wellFormedItem, Bool.and_eq_true] at hw
    obtain ⟨hid, hrest⟩ := hw
    cases hid2 : lookupJ fs "id" with
    | none => rw [hid2] at hid; simp at hid
    | some pid =>
      cases hp : lookupJ fs "properties" with
      | none => rw [hp] at hrest; simp at hrest
      | some pv =>
        rw [hp] at hrest
        cases pv with
        | obj props =>
          simp only [Bool.and_eq_true] at hrest
          obtain ⟨hs1, hs2⟩ := hrest
          obtain ⟨t, ht⟩ := extractField_ok_of_shapeOk props "Doc name" "title" hs1
          obtain ⟨d, hd⟩ := extractField_ok_of_shapeOk props "Notes / Background" "rich_text" hs2
          have hhas : itemHasTitle (JVal.obj fs) = pyTruthy t := by
            simp [itemHasTitle, hp, ht]
          cases htt : pyTruthy t with
          | false =>
            rw [hhas, htt]
            simp [processItem, pyIndex, hid2, hp, ht, hd, htt]
          | true =>
            rw [hhas, htt]
            obtain ⟨x, xs, hcp⟩ := hc (summarize_prompt (pyStr t) (pyStr d))
            refine ⟨summarize_prompt (pyStr t) (pyStr d), pyStr pid,
              update_notion_page_body (pyStrip x), ?_⟩
            have hust := hu (pyStr pid) (update_notion_page_body (pyStrip x))
            simp [processItem, pyIndex, hid2, hp, ht, hd, htt, summarize_task, hcp,
              update_notion_page, raise_for_status]
            omega
        | null => simp at hrest
        | bool b => simp at hrest
        | num n => simp at hrest
        | str s => simp at hrest
        | arr ys => simp at hrest
  | null => simp [wellFormedItem] at hw
  | bool b => simp [wellFormedItem] at hw
  | num n => simp [wellFormedItem] at hw
  | str s => simp [wellFormedItem] at hw
  | arr ys => simp [wellFormedItem] at hw


theorem processItem_wf_snd (c : String → Except PyErr (List String))
    (u : String → JVal → Nat) (item : JVal)
    (hc : ∀ p, ∃ x xs, c p = Except.ok (x :: xs))
    (hu : ∀ pid b, u pid b < 400)
    (hw : wellFormedItem item = true) :
    (processItem c u item).2 = Except.ok () := by
  have h := processItem_wf c u item hc hu hw
  cases htt : itemHasTitle item with
  | true =>
    rw [htt] at h
    simp only [if_true] at h
    obtain ⟨p, pid, b, he⟩ := h
    rw [he]
  | false =>
    rw [htt] at h
    simp only [Bool.false_eq_true, if_false] at h
    rw [h]

theorem processItems_wf (c : String → Except PyErr (List String))
    (u : String → JVal → Nat)
    (hc : ∀ p, ∃ x xs, c p = Except.ok (x :: xs))
    (hu : ∀ pid b, u pid b < 400) :
    ∀ items : List JVal, (∀ it ∈ items, wellFormedItem it = true) →
      processItems c u items =
        (items.flatMap (fun it => (processItem c u it).1), Except.ok ()) := by
  intro items hws
  induction items with
  | nil => simp [processItems]
  | cons item rest ih =>
    have hwi : wellFormedItem item = true := hws item (List.mem_cons_self item rest)
    have hitem : processItem c u item = ((processItem c u item).1, Except.ok ()) := by
      have h2 := processItem_wf_snd c u item hc hu hwi
      rw [← h2]
    have hrest := ih (fun it hin => hws it (List.mem_cons_of_mem item hin))
    simp only [processItems]
    rw [hitem, hrest]
    simp


theorem processItem_counts (c : String → Except PyErr (List String))
    (u : String → JVal → Nat) (item : JVal)
    (hc : ∀ p, ∃ x xs, c p = Except.ok (x :: xs))
    (hu : ∀ pid b, u pid b < 400)
    (hw : wellFormedItem item = true) :
    (processItem c u item).1.countP isSummarizeEv = (if itemHasTitle item then 1 else 0) ∧
    (processItem c u item).1.countP isUpdateEv = (if itemHasTitle item then 1 else 0) := by
  have h := processItem_wf c u item hc hu hw
  cases htt : itemHasTitle item with
  | true =>
    rw [htt] at h
    simp only [if_true] at h
    obtain ⟨p, pid, b, he⟩ := h
    rw [he]
    simp [List.countP_cons, isSummarizeEv, isUpdateEv]
  | false =>
    rw [htt] at h
    simp only [Bool.false_eq_true, if_false] at h
    rw [h]
    simp

theorem processItems_counts (c : String → Except PyErr (List String))
    (u : String → JVal → Nat)
    (hc : ∀ p, ∃ x xs, c p = Except.ok (x :: xs))
    (hu : ∀ pid b, u pid b < 400) :
    ∀ items : List JVal, (∀ it ∈ items, wellFormedItem it = true) →
      (items.flatMap (fun it => (processItem c u it).1)).countP isSummarizeEv =
        items.countP itemHasTitle ∧
      (items.flatMap (fun it => (processItem c u it).1)).countP isUpdateEv =
        items.countP itemHasTitle := by
  intro items hws
  induction items with
  | nil => simp
  | cons item rest ih =>
    have hwi : wellFormedItem item = true := hws item (List.mem_cons_self item rest)
    have hcounts := processItem_counts c u item hc hu hwi
    have hrest := ih (fun it hin => hws it (List.mem_cons_of_mem item hin))
    simp only [List.flatMap_cons, List.countP_append, List.countP_cons, hcounts.1, hcounts.2,
      hrest.1, hrest.2]
    cases htt : itemHasTitle item <;> simp [htt]
    omega


/-- C1 counterexample: a malformed first fragment (a number instead of a
dict) in the "title" rich-text sequence makes the extraction raise
`AttributeError` instead of degrading to an empty string. -/
theorem claim_C1_counterexample :
    extractField [("Doc name", JVal.obj [("title", JVal.arr [JVal.num 1])])]
      "Doc name" "title" = Except.error PyErr.attrError := rfl

/-- C1 (amended): the extraction raises (with `AttributeError`) exactly when
a value it calls `.get` on — the property's value, the first fragment, or
the fragment's "text" value — is not a dict; for every other shape mismatch
(missing property, field value that is not a non-empty list, first fragment
dict without a "text" dict, "text" dict without a truthy "content") the
result degrades to the empty string. -/
theorem claim_C1 (props : List (String × JVal)) (pn fn : String) :
    (extractField props pn fn = Except.error PyErr.attrError ↔
      extractShapeOk props pn fn = false) ∧
    (extractDegrades props pn fn = true →
      extractField props pn fn = Except.ok (JVal.str "")) :=
  ⟨extractField_error_iff props pn fn,
   fun h => extractField_empty_of_degrades props pn fn h⟩

/-- C1 witness: the characterization applied at concrete records — a
non-dict property value raises; a missing property, a fragment without a
"text" key, and a "text" dict without "content" each degrade to the empty
string. -/
theorem claim_C1_witness :
    extractField [("Doc name", JVal.str "x")] "Doc name" "title" =
      Except.error PyErr.attrError ∧
    extractField [] "Doc name" "title" = Except.ok (JVal.str "") ∧
    extractField [("Doc name", JVal.obj [("title", JVal.arr [JVal.obj [("plain", JVal.str "t")]])])]
      "Doc name" "title" = Except.ok (JVal.str "") ∧
    extractField [("Doc name", JVal.obj [("title", JVal.arr [JVal.obj [("text", JVal.obj [("link", JVal.null)])]])])]
      "Doc name" "title" = Except.ok (JVal.str "") := by
  refine ⟨?_, ?_, ?_, ?_⟩
  · exact (claim_C1 [("Doc name", JVal.str "x")] "Doc name" "title").1.mpr rfl
  · exact (claim_C1 [] "Doc name" "title").2 rfl
  · exact (claim_C1 [("Doc name", JVal.obj [("title", JVal.arr [JVal.obj
      [("plain", JVal.str "t")]])])] "Doc name" "title").2 rfl
  · exact (claim_C1 [("Doc name", JVal.obj [("title", JVal.arr [JVal.obj
      [("text", JVal.obj [("link", JVal.null)])]])])] "Doc name" "title").2 rfl

/-- C2: for a record with non-empty title `T` and description `D`, the
completion endpoint is called with a prompt containing `T` and `D` verbatim,
and the returned text, stripped of surrounding whitespace, is passed
unmodified as the content of the single "Summary" rich-text fragment of the
update call issued for that record's id. -/
theorem claim_C2 (c : String → Except PyErr (List String)) (u : String → JVal → Nat)
    (fs props : List (String × JVal)) (pid T D raw : String) (more : List String)
    (hid : lookupJ fs "id" = some (JVal.str pid))
    (hprops : lookupJ fs "properties" = some (JVal.obj props))
    (ht : extractField props "Doc name" "title" = Except.ok (JVal.str T))
    (hT : T ≠ "")
    (hd : extractField props "Notes / Background" "rich_text" = Except.ok (JVal.str D))
    (hcp : c (summarize_prompt T D) = Except.ok (raw :: more)) :
    (∃ a b, summarize_prompt T D = a ++ T ++ b) ∧
    (∃ a b, summarize_prompt T D = a ++ D ++ b) ∧
    (processItem c u (JVal.obj fs)).1 =
      [Event.summarize (summarize_prompt T D),
       Event.update pid (update_notion_page_body (pyStrip raw))] ∧
    update_notion_page_body (pyStrip raw) =
      JVal.obj [("properties", JVal.obj [("Summary", JVal.obj [("rich_text",
        JVal.arr [JVal.obj [("text", JVal.obj [("content", JVal.str (pyStrip raw))])]])])])] := by
  refine ⟨⟨"Summarize and prioritize this task:\nTitle: ", "\nDescription: " ++ D, ?_⟩,
    ⟨"Summarize and prioritize this task:\nTitle: " ++ T ++ "\nDescription: ", "", ?_⟩, ?_, rfl⟩
  · simp [summarize_prompt, String.append_assoc]
  · simp [summarize_prompt, String.append_assoc]
  · have htt : pyTruthy (JVal.str T) = true := by simp [pyTruthy, hT]
    simp [processItem, pyIndex, hid, hprops, ht, hd, htt, summarize_task, pyStr, hcp,
      update_notion_page]

/-- C2 witness: the round-trip at a concrete record. -/
theorem claim_C2_witness :
    (processItem (fun _ => Except.ok ["  Do it soon. "]) (fun _ _ => 200)
        (sampleRecord "page-1" "Fix login bug" "Users cannot log in")).1 =
      [Event.summarize (summarize_prompt "Fix login bug" "Users cannot log in"),
       Event.update "page-1" (update_notion_page_body "Do it soon.")] ∧
    (∃ a b, summarize_prompt "Fix login bug" "Users cannot log in" =
      a ++ "Fix login bug" ++ b) := by
  have h := claim_C2 (fun _ => Except.ok ["  Do it soon. "]) (fun _ _ => 200)
      (sampleFields "page-1" "Fix login bug" "Users cannot log in")
      (sampleProps "Fix login bug" "Users cannot log in")
      "page-1" "Fix login bug" "Users cannot log in" "  Do it soon. " []
      rfl rfl rfl (by decide) rfl rfl
  exact ⟨h.2.2.1.trans rfl, h.1⟩

/-- C3: for a well-formed fetched sequence, the loop succeeds, its trace is
the in-order concatenation of the per-item traces, the number of completion
calls and of update calls both equal the number of items with a truthy
title, and each such item contributes exactly its completion call followed
by its update call (skipped items contribute nothing). -/
theorem claim_C3 (c : String → Except PyErr (List String)) (u : String → JVal → Nat)
    (items : List JVal)
    (hws : ∀ it ∈ items, wellFormedItem it = true)
    (hc : ∀ p, ∃ x xs, c p = Except.ok (x :: xs))
    (hu : ∀ pid b, u pid b < 400) :
    (processItems c u items).2 = Except.ok () ∧
    (processItems c u items).1 = items.flatMap (fun it => (processItem c u it).1) ∧
    (processItems c u items).1.countP isSummarizeEv = items.countP itemHasTitle ∧
    (processItems c u items).1.countP isUpdateEv = items.countP itemHasTitle ∧
    ∀ it ∈ items,
      (itemHasTitle it = true →
        ∃ p pid b, (processItem c u it).1 = [Event.summarize p, Event.update pid b]) ∧
      (itemHasTitle it = false → (processItem c u it).1 = []) := by
  have htr := processItems_wf c u hc hu items hws
  have hcnt := processItems_counts c u hc hu items hws
  refine ⟨by rw [htr], by rw [htr], by rw [htr]; exact hcnt.1, by rw [htr]; exact hcnt.2, ?_⟩
  intro it hin
  have h := processItem_wf c u it hc hu (hws it hin)
  constructor
  · intro htt
    rw [htt] at h
    simp only [if_true] at h
    obtain ⟨p, pid, b, he⟩ := h
    exact ⟨p, pid, b, by rw [he]⟩
  · intro htt
    rw [htt] at h
    simp only [Bool.false_eq_true, if_false] at h
    rw [h]

/-- C3 witness: two well-formed records, one with a title, one without. -/
theorem claim_C3_witness :
    (processItems (fun _ => Except.ok ["s"]) (fun _ _ => 200)
        [sampleRecord "p1" "T1" "D1", sampleNoTitleRecord]).2 = Except.ok () ∧
    (processItems (fun _ => Except.ok ["s"]) (fun _ _ => 200)
        [sampleRecord "p1" "T1" "D1", sampleNoTitleRecord]).1.countP isSummarizeEv = 1 ∧
    (processItems (fun _ => Except.ok ["s"]) (fun _ _ => 200)
        [sampleRecord "p1" "T1" "D1", sampleNoTitleRecord]).1.countP isUpdateEv = 1 := by
  have h := claim_C3 (fun _ => Except.ok ["s"]) (fun _ _ => 200)
      [sampleRecord "p1" "T1" "D1", sampleNoTitleRecord]
      (by intro it hin; simp [List.mem_cons] at hin; rcases hin with rfl | rfl <;> rfl)
      (fun p => ⟨"s", [], rfl⟩) (fun pid b => by show (200:Nat) < 400; decide)
  refine ⟨h.1, ?_, ?_⟩
  · rw [h.2.2.1]; rfl
  · rw [h.2.2.2.1]; rfl


theorem titleAbsentOrEmpty_extract (props : List (String × JVal))
    (h : titleAbsentOrEmpty props = true) :
    extractField props "Doc name" "title" = Except.ok (JVal.str "") := by
  unfold titleAbsentOrEmpty at h
  split at h
  · next hdn =>
    apply extractField_empty_of_no_frag props _ _ []
    · simp [hdn]
    · intro frag rest hcon; simp [lookupJ] at hcon
  · next fs hdn =>
    apply extractField_empty_of_no_frag props _ _ fs
    · simp [hdn]
    · intro frag rest hcon
      split at h
      · next hti => rw [hti] at hcon; simp at hcon
      · next hti => rw [hti] at hcon; simp at hcon
      · next hother => simp at h
  · next v hdn hne => simp at h

/-- C4 counterexample: a record whose title rich-text sequence is empty but
whose description property is a number is not skipped — the description
extraction (EC.py line 105) runs before the skip check (line 110) and
raises `AttributeError`, aborting the run with no calls, so the following
record (which a skip-and-continue would process into two calls) is never
reached. -/
theorem claim_C4_counterexample :
    titleAbsentOrEmpty [("Doc name", JVal.obj [("title", JVal.arr [])]),
        ("Notes / Background", JVal.num 5)] = true ∧
    processItems (fun _ => Except.ok ["s"]) (fun _ _ => 200)
        [JVal.obj [("id", JVal.str "p2"), ("properties", JVal.obj
           [("Doc name", JVal.obj [("title", JVal.arr [])]),
            ("Notes / Background", JVal.num 5)])],
         sampleRecord "p1" "T1" "D1"] = ([], Except.error PyErr.attrError) ∧
    processItems (fun _ => Except.ok ["s"]) (fun _ _ => 200)
        [sampleRecord "p1" "T1" "D1"] =
      ([Event.summarize (summarize_prompt "T1" "D1"),
        Event.update "p1" (update_notion_page_body "s")], Except.ok ()) ∧
    ([] : List Event) ≠ [Event.summarize (summarize_prompt "T1" "D1"),
        Event.update "p1" (update_notion_page_body "s")] :=
  ⟨rfl, rfl, rfl, by simp⟩

/-- C4 (amended): a record whose title rich-text sequence is empty or
absent, and whose description extraction does not itself raise, extracts an
empty title, contributes no calls, and the loop continues with the
remaining records unchanged; without that proviso a raising description
shape aborts the run instead, since the description is extracted before the
skip check. -/
theorem claim_C4 (c : String → Except PyErr (List String)) (u : String → JVal → Nat)
    (fs props : List (String × JVal)) (rest : List JVal) (pid : JVal)
    (hid : lookupJ fs "id" = some pid)
    (hprops : lookupJ fs "properties" = some (JVal.obj props))
    (htitle : titleAbsentOrEmpty props = true)
    (hdesc : ∃ d, extractField props "Notes / Background" "rich_text" = Except.ok d) :
    extractField props "Doc name" "title" = Except.ok (JVal.str "") ∧
    processItem c u (JVal.obj fs) = ([], Except.ok ()) ∧
    processItems c u (JVal.obj fs :: rest) = processItems c u rest := by
  obtain ⟨d, hd⟩ := hdesc
  have ht := titleAbsentOrEmpty_extract props htitle
  have hskip : processItem c u (JVal.obj fs) = ([], Except.ok ()) := by
    simp [processItem, pyIndex, hid, hprops, ht, hd, pyTruthy]
  refine ⟨ht, hskip, ?_⟩
  cases hpr : processItems c u rest with
  | mk evs r => simp [processItems, hskip, hpr]

/-- C4 witness: a record with an empty title sequence followed by one with a
title is skipped, leaving the rest of the run unchanged. -/
theorem claim_C4_witness :
    extractField [("Doc name", JVal.obj [("title", JVal.arr [])]),
        ("Notes / Background", JVal.obj [("rich_text", JVal.arr [JVal.obj
          [("text", JVal.obj [("content", JVal.str "d2")])]])])]
      "Doc name" "title" = Except.ok (JVal.str "") ∧
    processItems (fun _ => Except.ok ["s"]) (fun _ _ => 200)
        [sampleNoTitleRecord, sampleRecord "p1" "T1" "D1"] =
      processItems (fun _ => Except.ok ["s"]) (fun _ _ => 200)
        [sampleRecord "p1" "T1" "D1"] := by
  have h := claim_C4 (fun _ => Except.ok ["s"]) (fun _ _ => 200)
      [("id", JVal.str "p2"), ("properties", JVal.obj
        [("Doc name", JVal.obj [("title", JVal.arr [])]),
         ("Notes / Background", JVal.obj [("rich_text", JVal.arr [JVal.obj
           [("text", JVal.obj [("content", JVal.str "d2")])]])])])]
      [("Doc name", JVal.obj [("title", JVal.arr [])]),
       ("Notes / Background", JVal.obj [("rich_text", JVal.arr [JVal.obj
         [("text", JVal.obj [("content", JVal.str "d2")])]])])]
      [sampleRecord "p1" "T1" "D1"] (JVal.str "p2")
      rfl rfl rfl ⟨JVal.str "d2", rfl⟩
  exact ⟨h.1, h.2.2⟩

/-- C5: a non-success status on the database query makes the run abort with
the HTTP error after the query call alone — no completion or update call
occurs. -/
theorem claim_C5 (status : Nat) (body : JVal)
    (c : String → Except PyErr (List String)) (u : String → JVal → Nat)
    (h4 : 400 ≤ status) (h6 : status < 600) :
    main status body c u = ([Event.query], Except.error (PyErr.httpError status)) := by
  simp [main, get_new_notion_items, raise_for_status, h4, h6]

/-- C5 witness: a 404 query response. -/
theorem claim_C5_witness :
    main 404 (JVal.obj [("results", JVal.arr [sampleRecord "p1" "T1" "D1"])])
      (fun _ => Except.ok ["s"]) (fun _ _ => 200) =
    ([Event.query], Except.error (PyErr.httpError 404)) :=
  claim_C5 404 (JVal.obj [("results", JVal.arr [sampleRecord "p1" "T1" "D1"])])
    (fun _ => Except.ok ["s"]) (fun _ _ => 200) (by decide) (by decide)

/-- C6: when the completion call for a record fails, the trace of the whole
remaining run is exactly that one completion call — no update call for the
record, and no call for any later record. -/
theorem claim_C6 (c : String → Except PyErr (List String)) (u : String → JVal → Nat)
    (fs props : List (String × JVal)) (rest : List JVal) (pid t d : JVal) (e : PyErr)
    (hid : lookupJ fs "id" = some pid)
    (hprops : lookupJ fs "properties" = some (JVal.obj props))
    (ht : extractField props "Doc name" "title" = Except.ok t)
    (htt : pyTruthy t = true)
    (hd : extractField props "Notes / Background" "rich_text" = Except.ok d)
    (hcp : c (summarize_prompt (pyStr t) (pyStr d)) = Except.error e) :
    processItems c u (JVal.obj fs :: rest) =
      ([Event.summarize (summarize_prompt (pyStr t) (pyStr d))], Except.error e) := by
  have hitem : processItem c u (JVal.obj fs) =
      ([Event.summarize (summarize_prompt (pyStr t) (pyStr d))], Except.error e) := by
    simp [processItem, pyIndex, hid, hprops, ht, hd, htt, summarize_task, hcp]
  simp [processItems, hitem]

/-- C6 witness: a failing completion endpoint aborts a two-record run after
the first completion call. -/
theorem claim_C6_witness :
    processItems (fun _ => Except.error (PyErr.httpError 500)) (fun _ _ => 200)
        [sampleRecord "p1" "T1" "D1", sampleRecord "p3" "T3" "D3"] =
      ([Event.summarize (summarize_prompt "T1" "D1")],
        Except.error (PyErr.httpError 500)) := by
  have h := claim_C6 (fun _ => Except.error (PyErr.httpError 500)) (fun _ _ => 200)
      (sampleFields "p1" "T1" "D1") (sampleProps "T1" "D1")
      [sampleRecord "p3" "T3" "D3"] (JVal.str "p1") (JVal.str "T1") (JVal.str "D1")
      (PyErr.httpError 500) rfl rfl rfl rfl rfl rfl
  exact h


/-- C7 counterexample: with all three environment values present but the
token set to the empty string, startup validation fails — being present is
not sufficient. -/
theorem claim_C7_counterexample :
    (Option.some "").isSome = true ∧ (Option.some "key").isSome = true ∧
    (Option.some "db").isSome = true ∧
    run_program (some "") (some "key") (some "db") 200
        (JVal.obj [("results", JVal.arr [])])
        (fun _ => Except.ok ["s"]) (fun _ _ => 200) =
      ([], Except.error (PyErr.envError env_error_message)) :=
  ⟨rfl, rfl, rfl, rfl⟩

/-- C7 (amended): if any of the three configuration values is absent or
empty, the process fails with the descriptive startup error and makes no
network call; if all three are present and non-empty, startup validation
passes. -/
theorem claim_C7 (t k d : Option String) (st : Nat) (body : JVal)
    (c : String → Except PyErr (List String)) (u : String → JVal → Nat) :
    ((t = none ∨ t = some "" ∨ k = none ∨ k = some "" ∨ d = none ∨ d = some "") →
      run_program t k d st body c u =
        ([], Except.error (PyErr.envError env_error_message))) ∧
    ((∃ ts, t = some ts ∧ ts ≠ "") → (∃ ks, k = some ks ∧ ks ≠ "") →
      (∃ ds, d = some ds ∧ ds ≠ "") → startup_check t k d = Except.ok ()) := by
  constructor
  · intro h
    have hfail : startup_check t k d = Except.error (PyErr.envError env_error_message) := by
      rcases h with rfl | rfl | rfl | rfl | rfl | rfl <;>
        simp [startup_check, envTruthy]
    simp [run_program, hfail]
  · rintro ⟨ts, rfl, hts⟩ ⟨ks, rfl, hks⟩ ⟨ds, rfl, hds⟩
    simp [startup_check, envTruthy, hts, hks, hds]

/-- C7 witness: an absent token fails before any call; three non-empty
values pass validation. -/
theorem claim_C7_witness :
    run_program none (some "key") (some "db") 200 (JVal.obj [("results", JVal.arr [])])
        (fun _ => Except.ok ["s"]) (fun _ _ => 200) =
      ([], Except.error (PyErr.envError env_error_message)) ∧
    startup_check (some "tok") (some "key") (some "db") = Except.ok () := by
  constructor
  · exact (claim_C7 none (some "key") (some "db") 200 (JVal.obj [("results", JVal.arr [])])
      (fun _ => Except.ok ["s"]) (fun _ _ => 200)).1 (Or.inl rfl)
  · exact (claim_C7 (some "tok") (some "key") (some "db") 200 (JVal.obj [])
      (fun _ => Except.ok ["s"]) (fun _ _ => 200)).2
      ⟨"tok", rfl, by decide⟩ ⟨"key", rfl, by decide⟩ ⟨"db", rfl, by decide⟩

/-- C8 counterexample: a record with a non-empty title whose description
property is malformed — its first rich-text fragment is a number — raises
`AttributeError` at the description extraction, before the summarizer is
reached: the completion endpoint is never called for that record, against
the claim's "(or malformed)" branch. -/
theorem claim_C8_counterexample :
    extractField [("Doc name", JVal.obj [("title", JVal.arr [JVal.obj
        [("text", JVal.obj [("content", JVal.str "T1")])]])]),
      ("Notes / Background", JVal.obj [("rich_text", JVal.arr [JVal.num 5])])]
      "Notes / Background" "rich_text" = Except.error PyErr.attrError ∧
    processItem (fun _ => Except.ok ["s"]) (fun _ _ => 200)
        (JVal.obj [("id", JVal.str "p1"), ("properties", JVal.obj
          [("Doc name", JVal.obj [("title", JVal.arr [JVal.obj
            [("text", JVal.obj [("content", JVal.str "T1")])]])]),
           ("Notes / Background", JVal.obj
             [("rich_text", JVal.arr [JVal.num 5])])])]) =
      ([], Except.error PyErr.attrError) :=
  ⟨rfl, rfl⟩

/-- C8 (amended): a record with a truthy title whose description property is
absent — or malformed in a shape that degrades (the `extractDegrades`
shapes: its value is a dict whose "rich_text" is not a non-empty list, or
the first fragment is a dict without a "text" dict, or the "text" dict has
no truthy "content") — extracts an empty description, and the completion
endpoint is still called for it, with the empty description in the prompt;
malformed shapes that put a non-dict under a `.get` raise instead, and the
completion endpoint is not reached. -/
theorem claim_C8 (c : String → Except PyErr (List String)) (u : String → JVal → Nat)
    (fs props : List (String × JVal)) (pid t : JVal)
    (hid : lookupJ fs "id" = some pid)
    (hprops : lookupJ fs "properties" = some (JVal.obj props))
    (ht : extractField props "Doc name" "title" = Except.ok t)
    (htt : pyTruthy t = true)
    (hdeg : extractDegrades props "Notes / Background" "rich_text" = true) :
    extractField props "Notes / Background" "rich_text" = Except.ok (JVal.str "") ∧
    ∃ evs, (processItem c u (JVal.obj fs)).1 =
      Event.summarize (summarize_prompt (pyStr t) "") :: evs := by
  have hdesc : extractField props "Notes / Background" "rich_text" =
      Except.ok (JVal.str "") :=
    extractField_empty_of_degrades props "Notes / Background" "rich_text" hdeg
  refine ⟨hdesc, ?_⟩
  have hps : pyStr (JVal.str "") = "" := rfl
  cases hcp : c (summarize_prompt (pyStr t) "") with
  | error e =>
    exact ⟨[], by simp [processItem, pyIndex, hid, hprops, ht, hdesc, htt,
      summarize_task, hps, hcp]⟩
  | ok lst =>
    cases lst with
    | nil =>
      exact ⟨[], by simp [processItem, pyIndex, hid, hprops, ht, hdesc, htt,
        summarize_task, hps, hcp]⟩
    | cons x xs =>
      exact ⟨[Event.update (pyStr pid) (update_notion_page_body (pyStrip x))],
        by simp [processItem, pyIndex, hid, hprops, ht, hdesc, htt,
          summarize_task, hps, hcp, update_notion_page]⟩

/-- C8 witness: a record with a title and no description property, and one
whose description property holds a non-list "rich_text" value (a degrading
malformed shape): both extract an empty description and still reach the
completion call. -/
theorem claim_C8_witness :
    (extractField [("Doc name", JVal.obj [("title", JVal.arr [JVal.obj
        [("text", JVal.obj [("content", JVal.str "T1")])]])])]
      "Notes / Background" "rich_text" = Except.ok (JVal.str "") ∧
    ∃ evs, (processItem (fun _ => Except.ok ["s"]) (fun _ _ => 200)
        (JVal.obj [("id", JVal.str "p1"), ("properties", JVal.obj
          [("Doc name", JVal.obj [("title", JVal.arr [JVal.obj
            [("text", JVal.obj [("content", JVal.str "T1")])]])])])])).1 =
      Event.summarize (summarize_prompt "T1" "") :: evs) ∧
    (extractField [("Doc name", JVal.obj [("title", JVal.arr [JVal.obj
        [("text", JVal.obj [("content", JVal.str "T1")])]])]),
       ("Notes / Background", JVal.obj [("rich_text", JVal.str "oops")])]
      "Notes / Background" "rich_text" = Except.ok (JVal.str "") ∧
    ∃ evs, (processItem (fun _ => Except.ok ["s"]) (fun _ _ => 200)
        (JVal.obj [("id", JVal.str "p1"), ("properties", JVal.obj
          [("Doc name", JVal.obj [("title", JVal.arr [JVal.obj
            [("text", JVal.obj [("content", JVal.str "T1")])]])]),
           ("Notes / Background", JVal.obj
             [("rich_text", JVal.str "oops")])])])).1 =
      Event.summarize (summarize_prompt "T1" "") :: evs) := by
  constructor
  · exact claim_C8 (fun _ => Except.ok ["s"]) (fun _ _ => 200)
      [("id", JVal.str "p1"), ("properties", JVal.obj
        [("Doc name", JVal.obj [("title", JVal.arr [JVal.obj
          [("text", JVal.obj [("content", JVal.str "T1")])]])])])]
      [("Doc name", JVal.obj [("title", JVal.arr [JVal.obj
        [("text", JVal.obj [("content", JVal.str "T1")])]])])]
      (JVal.str "p1") (JVal.str "T1") rfl rfl rfl rfl rfl
  · exact claim_C8 (fun _ => Except.ok ["s"]) (fun _ _ => 200)
      [("id", JVal.str "p1"), ("properties", JVal.obj
        [("Doc name", JVal.obj [("title", JVal.arr [JVal.obj
          [("text", JVal.obj [("content", JVal.str "T1")])]])]),
         ("Notes / Background", JVal.obj [("rich_text", JVal.str "oops")])])]
      [("Doc name", JVal.obj [("title", JVal.arr [JVal.obj
        [("text", JVal.obj [("content", JVal.str "T1")])]])]),
       ("Notes / Background", JVal.obj [("rich_text", JVal.str "oops")])]
      (JVal.str "p1") (JVal.str "T1") rfl rfl rfl rfl rfl

/-- C9: a success status whose JSON body lacks a "results" field makes the
fetch raise `KeyError`, aborting the run after the query call alone. -/
theorem claim_C9 (status : Nat) (bodyFields : List (String × JVal))
    (c : String → Except PyErr (List String)) (u : String → JVal → Nat)
    (hst : status < 400)
    (hres : lookupJ bodyFields "results" = none) :
    main status (JVal.obj bodyFields) c u =
      ([Event.query], Except.error (PyErr.keyError "results")) := by
  have hrs : raise_for_status status = Except.ok () := by
    simp only [raise_for_status, ite_eq_right_iff]
    omega
  simp [main, get_new_notion_items, hrs, pyIndex, hres]

/-- C9 witness: a 200 response whose body has no "results" key. -/
theorem claim_C9_witness :
    main 200 (JVal.obj [("objects", JVal.arr [])])
      (fun _ => Except.ok ["s"]) (fun _ _ => 200) =
    ([Event.query], Except.error (PyErr.keyError "results")) :=
  claim_C9 200 [("objects", JVal.arr [])]
    (fun _ => Except.ok ["s"]) (fun _ _ => 200) (by decide) rfl

/-- C10: a fetched record lacking an "id" key or a "properties" key makes
the loop raise `KeyError` immediately: no call is made for it or for any
later record. -/
theorem claim_C10 (c : String → Except PyErr (List String)) (u : String → JVal → Nat)
    (fs : List (String × JVal)) (rest : List JVal)
    (h : lookupJ fs "id" = none ∨ lookupJ fs "properties" = none) :
    processItems c u (JVal.obj fs :: rest) =
        ([], Except.error (PyErr.keyError "id")) ∨
    processItems c u (JVal.obj fs :: rest) =
        ([], Except.error (PyErr.keyError "properties")) := by
  cases hid : lookupJ fs "id" with
  | none =>
    left
    have hit : processItem c u (JVal.obj fs) = ([], Except.error (PyErr.keyError "id")) := by
      simp [processItem, pyIndex, hid]
    simp [processItems, hit]
  | some pid =>
    rcases h with h1 | h2
    · rw [hid] at h1; exact Option.noConfusion h1
    · right
      have hit : processItem c u (JVal.obj fs) =
          ([], Except.error (PyErr.keyError "properties")) := by
        simp [processItem, pyIndex, hid, h2]
      simp [processItems, hit]

/-- C10 witness: a record with only a "properties" key aborts a run that
still had a processable record after it. -/
theorem claim_C10_witness :
    processItems (fun _ => Except.ok ["s"]) (fun _ _ => 200)
        [JVal.obj [("properties", JVal.obj [])], sampleRecord "p1" "T1" "D1"] =
      ([], Except.error (PyErr.keyError "id")) ∨
    processItems (fun _ => Except.ok ["s"]) (fun _ _ => 200)
        [JVal.obj [("properties", JVal.obj [])], sampleRecord "p1" "T1" "D1"] =
      ([], Except.error (PyErr.keyError "properties")) :=
  claim_C10 (fun _ => Except.ok ["s"]) (fun _ _ => 200)
    [("properties", JVal.obj [])] [sampleRecord "p1" "T1" "D1"] (Or.inl rfl)

end EC
